import Mathlib

/-!
Verification of the Enchanced-Security-Performance health API core
(Go sources under `src/`): health record CRUD handlers, cached stats
aggregation, JWT session tokens and the login flow, shallowly embedded
in Lean.

Modelling conventions:
* The Redis key-value store is an association list keyed by the same
  string keys the Go code builds with `fmt.Sprintf`.  A `set` overwrites,
  a missing list key reads as the empty list (Redis `LRANGE` semantics).
* `float64` health values are embedded as `ℚ`; every concrete value the
  spec mentions (60, 72, 85.5, their sum and the division by 3) is exact
  in binary floating point, so the embedding is faithful on the claims.
* `time.Time` is embedded as an integer timestamp with the Go zero time
  at 0; `t.After u` is `u < t`.  Durations are in seconds (1h = 3600,
  30 days = 2592000).  TTLs are recorded on stored entries; clock-driven
  expiry itself is not part of any claim.
* JSON marshalling round-trips are taken as the identity (values are
  stored typed).
-/

namespace HealthAPI

/-- `rdb.Get`-style association-list lookup: first binding wins,
matching overwrite-by-shadowing in `kvSet`. -/
def kvGet {α : Type} (k : String) : List (String × α) → Option α
  | [] => none
  | (k', v) :: rest => if k = k' then some v else kvGet k rest

/-- `rdb.Del`: remove every binding of key `k`. -/
def kvDel {α : Type} (k : String) : List (String × α) → List (String × α)
  | [] => []
  | (k', v) :: rest => if k' = k then kvDel k rest else (k', v) :: kvDel k rest

/-- `rdb.Set`: overwrite the binding of key `k`. -/
def kvSet {α : Type} (k : String) (v : α) (l : List (String × α)) : List (String × α) :=
  (k, v) :: kvDel k l

/-! ## Data model (src/models.go) -/

/-- `HealthRecord` (src/models.go): a single health measurement.
`value` embeds the Go `float64`; `recordedAt`/`createdAt` embed
`time.Time` as integer timestamps. -/
structure HealthRecord where
  id : String
  userID : String
  type : String
  value : ℚ
  unit : String
  notes : String
  recordedAt : Int
  createdAt : Int
deriving DecidableEq, Repr

/-- `HealthStats` (src/models.go): aggregated statistics for one
(user, type) pair. -/
structure HealthStats where
  userID : String
  type : String
  average : ℚ
  min : ℚ
  max : ℚ
  count : Nat
  lastRecord : Int
deriving DecidableEq, Repr

/-- The Go zero value of `HealthStats` (`var stats HealthStats`). -/
def zeroStats : HealthStats :=
  { userID := "", type := "", average := 0, min := 0, max := 0, count := 0, lastRecord := 0 }

/-- `HealthRecordRequest` (src/models.go): the create/update payload.
`recordedAt` stays a raw string, parsed by the handler. -/
structure HealthRecordRequest where
  type : String
  value : ℚ
  unit : String
  notes : String
  recordedAt : String
deriving DecidableEq, Repr

/-- `User` (src/models.go): `password` holds the bcrypt digest. -/
structure User where
  id : String
  email : String
  password : String
  fullName : String
  active : Bool
deriving DecidableEq, Repr

/-- Redis-backed state reachable from the health handlers.  Every entry
carries the TTL (seconds) it was last written with. -/
structure Store where
  records : List (String × (HealthRecord × Nat))
  lists : List (String × (List String × Nat))
  statsCache : List (String × (HealthStats × Nat))
deriving DecidableEq, Repr

/-- `fmt.Sprintf("health:%s:%s", userID, recordID)`. -/
def recordKey (userID recordID : String) : String :=
  "health:" ++ userID ++ ":" ++ recordID

/-- `fmt.Sprintf("health:%s:list", userID)`. -/
def listKey (userID : String) : String :=
  "health:" ++ userID ++ ":list"

/-- `fmt.Sprintf("health:%s:stats:%s", userID, recordType)`. -/
def statsKey (userID recordType : String) : String :=
  "health:" ++ userID ++ ":stats:" ++ recordType

/-- The per-user record index; a missing Redis list key reads as empty. -/
def kvGetList (k : String) (lists : List (String × (List String × Nat))) : List String :=
  match kvGet k lists with
  | some (l, _) => l
  | none => []

/-! ## Concrete states used as test inputs -/

/-- A heart-rate record with the given id, value and timestamp for user
`"u"`, unit `"bpm"`. -/
def hrRec (rid : String) (v : ℚ) (t : Int) : HealthRecord :=
  { id := rid, userID := "u", type := "heart_rate", value := v, unit := "bpm",
    notes := "", recordedAt := t, createdAt := t }

/-- User `"u"` with exactly the three heart-rate records of values
60, 72, 85.5 (created in that order, hence index `["c","b","a"]`),
no records of any other type and an empty stats cache. -/
def sampleStore3 : Store :=
  { records := [(recordKey "u" "a", (hrRec "a" 60 1, 2592000)),
                (recordKey "u" "b", (hrRec "b" 72 2, 2592000)),
                (recordKey "u" "c", (hrRec "c" 85.5 3, 2592000))],
    lists := [(listKey "u", (["c", "b", "a"], 2592000))],
    statsCache := [] }

/-- A user `uid` whose store holds exactly three heart-rate records of
values 60, 72 and 85.5 (ids `i1`, `i2`, `i3`, recorded at `t1`, `t2`,
`t3`), no records of any other type, the index in LPush (newest-first)
order, and an empty stats cache. -/
def mkStore3 (uid i1 i2 i3 : String) (t1 t2 t3 : Int) : Store :=
  { records :=
      [(recordKey uid i1,
        ({ id := i1, userID := uid, type := "heart_rate", value := 60, unit := "bpm",
           notes := "", recordedAt := t1, createdAt := t1 }, 2592000)),
       (recordKey uid i2,
        ({ id := i2, userID := uid, type := "heart_rate", value := 72, unit := "bpm",
           notes := "", recordedAt := t2, createdAt := t2 }, 2592000)),
       (recordKey uid i3,
        ({ id := i3, userID := uid, type := "heart_rate", value := 85.5, unit := "bpm",
           notes := "", recordedAt := t3, createdAt := t3 }, 2592000))],
    lists := [(listKey uid, ([i3, i2, i1], 2592000))],
    statsCache := [] }

/-- 101 distinct record identifiers `r0 … r100`. -/
def ids101 : List String := (List.range 101).map (fun n => "r" ++ toString n)

/-- A user whose record index holds 101 identifiers. -/
def store101 : Store :=
  { records := [], lists := [(listKey "u", (ids101, 2592000))], statsCache := [] }

/-- A valid create request: a heart-rate reading of 90 bpm with a
non-empty, non-RFC3339 `recorded_at`. -/
def sampleReq : HealthRecordRequest :=
  { type := "heart_rate", value := 90, unit := "bpm", notes := "",
    recordedAt := "not-a-timestamp" }

/-- A registered, active user for the login tests. -/
def sampleUser : User :=
  { id := "u1", email := "alice@example.com", password := "bcrypt-digest",
    fullName := "Alice A", active := true }

/-! ## Helper lemmas about the key-value model -/

theorem kvGet_kvDel_ne {α : Type} (k k' : String) (l : List (String × α)) (h : k ≠ k') :
    kvGet k (kvDel k' l) = kvGet k l := by
  induction l with
  | nil => rfl
  | cons p rest ih =>
    obtain ⟨k₁, v₁⟩ := p
    by_cases hk : k₁ = k'
    · simp [kvDel, kvGet, hk, ih, h]
    · simp [kvDel, kvGet, hk, ih]

theorem kvGet_kvDel_self {α : Type} (k : String) (l : List (String × α)) :
    kvGet k (kvDel k l) = none := by
  induction l with
  | nil => rfl
  | cons p rest ih =>
    obtain ⟨k₁, v₁⟩ := p
    by_cases hk : k₁ = k
    · simp [kvDel, hk, ih]
    · simp [kvDel, kvGet, hk, ih, show k ≠ k₁ from fun he => hk he.symm]

theorem kvGet_kvSet_self {α : Type} (k : String) (v : α) (l : List (String × α)) :
    kvGet k (kvSet k v l) = some v := by
  simp [kvSet, kvGet]

theorem kvGet_kvSet_ne {α : Type} (k k' : String) (v : α) (l : List (String × α))
    (h : k ≠ k') : kvGet k (kvSet k' v l) = kvGet k l := by
  simp [kvSet, kvGet, h, kvGet_kvDel_ne k k' l h]

theorem kvGet_mem {α : Type} {k : String} {v : α} {l : List (String × α)}
    (h : kvGet k l = some v) : (k, v) ∈ l := by
  induction l with
  | nil => simp [kvGet] at h
  | cons p rest ih =>
    obtain ⟨k₁, v₁⟩ := p
    by_cases he : k = k₁
    · subst he
      have h' : v₁ = v := by simpa [kvGet] using h
      simp [h']
    · simp only [kvGet, if_neg he] at h
      exact List.mem_cons_of_mem _ (ih h)

theorem string_append_right_cancel {s a b : String} (h : s ++ a = s ++ b) : a = b := by
  have hd : s.data ++ a.data = s.data ++ b.data := by
    have hc := congrArg String.data h
    simpa using hc
  have hab : a.data = b.data := List.append_cancel_left hd
  cases a
  cases b
  exact congrArg String.mk hab

/-! ## Statistics helpers (src/health_handler.go, calculateAverage/Min/Max) -/

/-- `calculateAverage` (src/health_handler.go): sum divided by length,
0 on the empty list. -/
def calculateAverage (values : List ℚ) : ℚ :=
  if values.length = 0 then 0
  else (values.foldl (· + ·) 0) / (values.length : ℚ)

/-- `calculateMin` (src/health_handler.go): running minimum seeded with
`values[0]`, scanning the whole slice. -/
def calculateMin : List ℚ → ℚ
  | [] => 0
  | v :: vs => (v :: vs).foldl (fun m x => if x < m then x else m) v

/-- `calculateMax` (src/health_handler.go): running maximum seeded with
`values[0]`, scanning the whole slice. -/
def calculateMax : List ℚ → ℚ
  | [] => 0
  | v :: vs => (v :: vs).foldl (fun m x => if m < x then x else m) v

/-! ## Stats recomputation loop (src/health_handler.go:207-228) -/

/-- The cache-miss scan of `getHealthStatsHandler`: walk the record index,
fetch each record, keep values of the requested type and track the latest
`recordedAt` (`record.RecordedAt.After(lastRecord)`). The accumulator is
(values so far, lastRecord so far), seeded with `([], 0)` — the Go zero
`time.Time` is the model timestamp 0. -/
def collectStats (store : Store) (userID recordType : String) :
    List String → List ℚ × Int → List ℚ × Int
  | [], acc => acc
  | rid :: rest, (values, last) =>
    match kvGet (recordKey userID rid) store.records with
    | none => collectStats store userID recordType rest (values, last)
    | some (r, _) =>
      if r.type = recordType then
        collectStats store userID recordType rest
          (values ++ [r.value], if last < r.recordedAt then r.recordedAt else last)
      else
        collectStats store userID recordType rest (values, last)

/-- Values of the requested type gathered by the cache-miss scan over the
full record index (`LRange(listKey, 0, -1)`). -/
def statsValues (store : Store) (userID recordType : String) : List ℚ :=
  (collectStats store userID recordType (kvGetList (listKey userID) store.lists) ([], 0)).1

/-- Latest contributing `recordedAt` gathered by the cache-miss scan. -/
def statsLast (store : Store) (userID recordType : String) : Int :=
  (collectStats store userID recordType (kvGetList (listKey userID) store.lists) ([], 0)).2

/-- Response of the stats endpoint: HTTP status, the `X-Cache: HIT/MISS`
header as a Bool, the encoded `HealthStats` body on 200, the error body
on 400. -/
structure StatsResponse where
  status : Nat
  cacheHit : Bool
  stats : Option HealthStats
  error : Option String
deriving DecidableEq, Repr

/-- The cache-miss branch of `getHealthStatsHandler`
(src/health_handler.go:207-252): recompute from the record index; cache
for 3600 s only when at least one value matched, otherwise return the Go
zero `HealthStats` and leave the store untouched. -/
def recomputeStats (store : Store) (userID recordType : String) : StatsResponse × Store :=
  let values := statsValues store userID recordType
  if values.length > 0 then
    let s : HealthStats :=
      { userID := userID, type := recordType,
        average := calculateAverage values,
        min := calculateMin values, max := calculateMax values,
        count := values.length, lastRecord := statsLast store userID recordType }
    ({ status := 200, cacheHit := false, stats := some s, error := none },
     { store with statsCache := kvSet (statsKey userID recordType) (s, 3600) store.statsCache })
  else
    ({ status := 200, cacheHit := false, stats := some zeroStats, error := none }, store)

/-- `getHealthStatsHandler` (src/health_handler.go:170-252), after the
method check and JWT context extraction: 400 on a missing `type`
parameter, otherwise cache-first with recomputation on miss. -/
def getHealthStats (store : Store) (userID recordType : String) : StatsResponse × Store :=
  if recordType = "" then
    ({ status := 400, cacheHit := false, stats := none,
       error := some "Missing 'type' parameter" }, store)
  else
    match kvGet (statsKey userID recordType) store.statsCache with
    | some (s, _) =>
      ({ status := 200, cacheHit := true, stats := some s, error := none }, store)
    | none => recomputeStats store userID recordType

/-! ## List endpoint (src/health_handler.go:112-165) -/

/-- Redis `LRANGE key start stop` semantics (negative indexes count from
the tail; `stop` is inclusive), as exercised by `rdb.LRange`. -/
def lrange {α : Type} (l : List α) (start stop : Int) : List α :=
  let llen : Int := l.length
  let s0 : Int := if start < 0 then llen + start else start
  let e0 : Int := if stop < 0 then llen + stop else stop
  let s : Int := if s0 < 0 then 0 else s0
  if s > e0 ∨ s ≥ llen then []
  else
    let e : Int := if e0 ≥ llen then llen - 1 else e0
    (l.take (e.toNat + 1)).drop s.toNat

/-- The pagination-parameter logic of `getHealthRecordsHandler`
(src/health_handler.go:126-133): default 20; a successfully `Sscanf`-parsed
`limit` replaces it (`none` covers both an absent parameter and a failed
parse, which leave the default in place); values above 100 are clamped
to 100.  Values of 100 and below — including 0 and negatives — pass
through unchanged. -/
def parseLimit (limitParam : Option Int) : Int :=
  match limitParam with
  | none => 20
  | some l => if l > 100 then 100 else l

/-- The record identifiers fetched by the list endpoint:
`rdb.LRange(listKey, 0, int64(limit-1))`. -/
def listRecordIDs (store : Store) (userID : String) (limitParam : Option Int) : List String :=
  lrange (kvGetList (listKey userID) store.lists) 0 (parseLimit limitParam - 1)

/-- Response of the list endpoint: status, decoded records, and the
`X-Total-Count` header (absent on the store-error branch). -/
structure ListResponse where
  status : Nat
  records : List HealthRecord
  totalCount : Option Nat
deriving DecidableEq, Repr

/-- `getHealthRecordsHandler` (src/health_handler.go:112-165) on the
error-free store path: page the index, fetch each record, skip missing
or undecodable ones. -/
def getHealthRecords (store : Store) (userID : String) (limitParam : Option Int) :
    ListResponse :=
  let ids := listRecordIDs store userID limitParam
  let records := ids.filterMap (fun rid => (kvGet (recordKey userID rid) store.records).map (·.1))
  { status := 200, records := records, totalCount := some records.length }

/-- The `err != nil` branch of the `rdb.LRange` call in
`getHealthRecordsHandler` (src/health_handler.go:137-144): any store
error is answered with 200 and an empty array, before `X-Total-Count`
is set.  `lrangeFails` models the store failing that one call. -/
def getHealthRecordsF (lrangeFails : Bool) (store : Store) (userID : String)
    (limitParam : Option Int) : ListResponse :=
  if lrangeFails then { status := 200, records := [], totalCount := none }
  else getHealthRecords store userID limitParam

/-! ## Create endpoint (src/health_handler.go:22-107, src/models.go:81-85) -/

/-- The `oneof=blood_pressure heart_rate weight temperature glucose` tag. -/
def allowedTypes : List String :=
  ["blood_pressure", "heart_rate", "weight", "temperature", "glucose"]

/-- `validate.Struct` on `HealthRecordInput` (src/models.go:81-85) with
tags `Type: required,oneof=...`, `Value: required,min=0,max=500`,
`Unit: required`.  go-playground/validator's `required` fails whenever a
field holds its Go zero value — for the `float64` `Value` that means
`Value == 0` fails `required` even though `min=0` alone would admit it. -/
def validateHealthRecordInput (t : String) (v : ℚ) (u : String) : Bool :=
  (!(t == "")) && allowedTypes.contains t &&
    (!(v == 0)) && decide (0 ≤ v) && decide (v ≤ 500) &&
    (!(u == ""))

/-- Response of the create endpoint. -/
structure CreateResponse where
  status : Nat
  error : Option String
  record : Option HealthRecord
deriving DecidableEq, Repr

/-- `createHealthRecordHandler` (src/health_handler.go:22-107) after
method/size/JWT checks, on the error-free store path.  `parseTime`
embeds `time.Parse(time.RFC3339, ·)` (the Go time library collaborator):
`none` for a string it rejects.  `newID` is the fresh `uuid.New()`,
`now` the server clock.  Effects in source order: `Set` the record
(TTL 30 days), `LPush` its id onto the index and `Expire` the index,
`Del` the stats cache entry for the request's type. -/
def createHealthRecord (parseTime : String → Option Int) (store : Store)
    (userID : String) (req : HealthRecordRequest) (newID : String) (now : Int) :
    CreateResponse × Store :=
  if !(validateHealthRecordInput req.type req.value req.unit) then
    ({ status := 400, error := some "validation error", record := none }, store)
  else
    let recordedAt : Int :=
      if req.recordedAt = "" then now
      else match parseTime req.recordedAt with
        | some t => t
        | none => now
    let newRec : HealthRecord :=
      { id := newID, userID := userID, type := req.type, value := req.value,
        unit := req.unit, notes := req.notes, recordedAt := recordedAt, createdAt := now }
    let store1 : Store :=
      { store with records := kvSet (recordKey userID newID) (newRec, 2592000) store.records }
    let store2 : Store :=
      { store1 with
        lists := kvSet (listKey userID)
          (newID :: kvGetList (listKey userID) store1.lists, 2592000) store1.lists }
    let store3 : Store :=
      { store2 with statsCache := kvDel (statsKey userID req.type) store2.statsCache }
    ({ status := 201, error := none, record := some newRec }, store3)

/-- The `rdb.Set` failure branch of `createHealthRecordHandler`
(src/health_handler.go:85-90): the handler logs the detail server-side
and answers 500 with the fixed body `Failed to create record`; nothing
is written.  `setFails` models the store failing that call. -/
def createHealthRecordF (setFails : Bool) (parseTime : String → Option Int) (store : Store)
    (userID : String) (req : HealthRecordRequest) (newID : String) (now : Int) :
    CreateResponse × Store :=
  if !(validateHealthRecordInput req.type req.value req.unit) then
    ({ status := 400, error := some "validation error", record := none }, store)
  else if setFails then
    ({ status := 500, error := some "Failed to create record", record := none }, store)
  else createHealthRecord parseTime store userID req newID now

/-- The stats-cache `rdb.Get` call of `getHealthStatsHandler`
(src/health_handler.go:194-205): the code keeps the hit branch only when
`err == nil`, so a missing key (`redis.Nil`) and a store failure both
fall through to recomputation.  `cacheGetFails` models the store failing
that call. -/
def getHealthStatsF (cacheGetFails : Bool) (store : Store) (userID recordType : String) :
    StatsResponse × Store :=
  if recordType = "" then
    ({ status := 400, cacheHit := false, stats := none,
       error := some "Missing 'type' parameter" }, store)
  else if cacheGetFails then recomputeStats store userID recordType
  else getHealthStats store userID recordType

/-! ## Session tokens (src/unnamed/part_001: generateJWT, jwtMiddleware)

The HMAC-SHA256 signature is embedded symbolically: a signed token
records the claims together with the key it was signed with, and
verification checks that recorded key against the verifier's secret.
This is the standard symbolic model of an unforgeable MAC. -/

/-- `jwt.RegisteredClaims` as populated by `generateJWT`: subject and
expiry (seconds timestamp). -/
structure RegisteredClaims where
  subject : String
  expiresAt : Int
deriving DecidableEq, Repr

/-- A token produced by `jwt.NewWithClaims(HS256, claims).SignedString(key)`:
claims plus the symbolic MAC (the signing key). -/
structure SignedToken where
  claims : RegisteredClaims
  macKey : String
deriving DecidableEq, Repr

/-- `generateJWT` (src/unnamed/part_001:37-44): claims are exactly
{Subject = userID, ExpiresAt = now + 1 hour}, signed with the
process-wide secret. -/
def generateJWT (secret : String) (now : Int) (userID : String) : SignedToken :=
  { claims := { subject := userID, expiresAt := now + 3600 }, macKey := secret }

/-- The verification performed inside `jwtMiddleware`
(src/unnamed/part_001:23-29): `jwt.ParseWithClaims` checks the HS256
signature against the secret and `RegisteredClaims.Valid` checks
`now < exp`; on success the middleware resolves the token to
`claims.Subject`, otherwise the request is Unauthorized (`none`). -/
def verifyJWT (secret : String) (now : Int) (t : SignedToken) : Option String :=
  if t.macKey = secret ∧ now < t.claims.expiresAt then some t.claims.subject else none

/-! ## Login (spec §4.5; listing in src/IMPLEMENTATION.md:555-656) -/

/-- Response of the login endpoint. -/
structure LoginResponse where
  status : Nat
  error : Option String
  token : Option SignedToken
  userID : Option String
deriving DecidableEq, Repr

/-- Modelled from the spec: `loginHandler`.  The authentication handler's
Go file is not among the sources under src/ — only its listing in
src/IMPLEMENTATION.md and spec §4.5 describe it.  Flow: validate the
request (`validEmail` embeds the validator collaborator's
`required,email` tag, `password ≠ ""` its `required` tag); look the user
up under `user:<email>`; a missing user and a failed password check
(`verify` embeds `VerifyPassword`, src/password.go) both answer 401 with
the same body `Invalid email or password`; an inactive user answers 403;
otherwise issue a token via `generateJWT`. -/
def loginHandler (verify : String → String → Bool) (validEmail : String → Bool)
    (users : List (String × User)) (secret : String) (now : Int)
    (email password : String) : LoginResponse :=
  if !(validEmail email && !(password == "")) then
    { status := 400, error := some "validation error", token := none, userID := none }
  else
    match kvGet ("user:" ++ email) users with
    | none =>
      { status := 401, error := some "Invalid email or password",
        token := none, userID := none }
    | some u =>
      if !(verify u.password password) then
        { status := 401, error := some "Invalid email or password",
          token := none, userID := none }
      else if !u.active then
        { status := 403, error := some "User account is inactive",
          token := none, userID := none }
      else
        { status := 200, error := none,
          token := some (generateJWT secret now u.id), userID := some u.id }

theorem recordKey_inj {uid a b : String} (h : recordKey uid a = recordKey uid b) : a = b :=
  string_append_right_cancel (s := "health:" ++ uid ++ ":") h

theorem statsKey_inj {uid a b : String} (h : statsKey uid a = statsKey uid b) : a = b :=
  string_append_right_cancel (s := "health:" ++ uid ++ ":stats:") h

/-! ## Helper lemmas about the stats scan -/

theorem collectStats_fst (store : Store) (u ty : String) (ids : List String) :
    ∀ (vs : List ℚ) (t : Int),
      (collectStats store u ty ids (vs, t)).1 = vs ++ (collectStats store u ty ids ([], 0)).1 := by
  induction ids with
  | nil => intro vs t; simp [collectStats]
  | cons rid rest ih =>
    intro vs t
    cases h : kvGet (recordKey u rid) store.records with
    | none => simp only [collectStats, h]; exact ih vs t
    | some p =>
      obtain ⟨r, ttl⟩ := p
      by_cases ht : r.type = ty
      · simp only [collectStats, h, if_pos ht, List.nil_append]
        rw [ih (vs ++ [r.value]), ih [r.value]]
        simp
      · simp only [collectStats, h, if_neg ht]
        exact ih vs t

theorem collectStats_congr (s1 s2 : Store) (u ty : String) (ids : List String)
    (h : ∀ rid ∈ ids, kvGet (recordKey u rid) s1.records = kvGet (recordKey u rid) s2.records) :
    ∀ acc, collectStats s1 u ty ids acc = collectStats s2 u ty ids acc := by
  induction ids with
  | nil => intro acc; rfl
  | cons rid rest ih =>
    intro acc
    obtain ⟨vs, t⟩ := acc
    have hhd : kvGet (recordKey u rid) s1.records = kvGet (recordKey u rid) s2.records :=
      h rid (List.mem_cons_self rid rest)
    have htl : ∀ rid' ∈ rest,
        kvGet (recordKey u rid') s1.records = kvGet (recordKey u rid') s2.records :=
      fun rid' hm => h rid' (List.mem_cons_of_mem rid hm)
    cases hk : kvGet (recordKey u rid) s2.records with
    | none => simp only [collectStats, hhd, hk]; exact ih htl _
    | some p =>
      obtain ⟨r, ttl⟩ := p
      by_cases ht : r.type = ty
      · simp only [collectStats, hhd, hk, if_pos ht]; exact ih htl _
      · simp only [collectStats, hhd, hk, if_neg ht]; exact ih htl _

theorem collectStats_no_match (store : Store) (u ty : String)
    (h : ∀ p ∈ store.records, (p.2.1).type ≠ ty) (ids : List String) :
    ∀ (vs : List ℚ) (t : Int), collectStats store u ty ids (vs, t) = (vs, t) := by
  induction ids with
  | nil => intro vs t; rfl
  | cons rid rest ih =>
    intro vs t
    cases hk : kvGet (recordKey u rid) store.records with
    | none => simp only [collectStats, hk]; exact ih vs t
    | some p =>
      obtain ⟨r, ttl⟩ := p
      have hm : (recordKey u rid, (r, ttl)) ∈ store.records := kvGet_mem hk
      have ht : r.type ≠ ty := h _ hm
      simp only [collectStats, hk, if_neg ht]
      exact ih vs t

theorem statsValues_nil_of_no_match (store : Store) (u ty : String)
    (h : ∀ p ∈ store.records, (p.2.1).type ≠ ty) :
    statsValues store u ty = [] := by
  simp [statsValues, collectStats_no_match store u ty h]

theorem recomputeStats_cacheHit (store : Store) (u ty : String) :
    (recomputeStats store u ty).1.cacheHit = false := by
  by_cases h : (statsValues store u ty).length > 0 <;> simp [recomputeStats, h]

/-! ## Helper lemma about `lrange` from index 0 -/

theorem lrange_zero_length_le {α : Type} (l : List α) (stop : Int) (h : 0 ≤ stop) :
    (lrange l 0 stop).length ≤ stop.toNat + 1 := by
  have hstop : ¬ stop < 0 := not_lt.mpr h
  have h00 : ¬ (0 : Int) < 0 := by omega
  unfold lrange
  simp only [if_neg hstop, if_neg h00]
  split
  · simp
  · rename_i hg
    rw [Int.toNat_zero, List.drop_zero]
    refine le_trans (List.length_take_le _ _) ?_
    have hlen : (0 : Int) ≤ (l.length : Int) := by positivity
    split
    · rename_i hge; omega
    · omega

/-! ## Claim theorems -/

/-- C5: for every non-empty userID, verifying a freshly issued token
succeeds and resolves to the same userID, and the issued token carries
exactly the claims {subject = userID, expiry = now + 1 hour}. -/
theorem C5_jwt_roundtrip (secret : String) (now : Int) (userID : String)
    (_h : userID ≠ "") :
    verifyJWT secret now (generateJWT secret now userID) = some userID ∧
    (generateJWT secret now userID).claims =
      { subject := userID, expiresAt := now + 3600 } := by
  refine ⟨?_, rfl⟩
  simp [verifyJWT, generateJWT]

theorem C5_jwt_roundtrip_witness :
    ("u42" : String) ≠ "" ∧
      (verifyJWT "s" 100 (generateJWT "s" 100 "u42") = some "u42" ∧
       (generateJWT "s" 100 "u42").claims = { subject := "u42", expiresAt := 100 + 3600 }) :=
  ⟨by decide, C5_jwt_roundtrip "s" 100 "u42" (by decide)⟩

/-- C2: evaluation of the create-record validator at the disputed
boundary.  `value = -1` is rejected, as the claim states; but
`value = 0` with all other fields valid is also rejected (the
`required` tag fails on the float64 zero value), contradicting the
claim that only `value ≥ 0` bounds the value from below; a strictly
positive value is accepted. -/
theorem C2_value_zero_rejected :
    validateHealthRecordInput "heart_rate" (-1) "bpm" = false ∧
    validateHealthRecordInput "heart_rate" 0 "bpm" = false ∧
    (createHealthRecord (fun _ => none) ⟨[], [], []⟩ "u"
        { type := "heart_rate", value := 0, unit := "bpm", notes := "", recordedAt := "" }
        "r1" 7).1.status = 400 ∧
    validateHealthRecordInput "heart_rate" 1 "bpm" = true := by
  refine ⟨by decide, by decide, ?_, by decide⟩
  rfl

/-- C9: a create-record request whose `recorded_at` is a non-empty
string rejected by the RFC3339 parser is not refused: the record is
created (201) with `recordedAt` silently replaced by the server's
current time. -/
theorem C9_invalid_recorded_at_uses_server_time
    (parseTime : String → Option Int) (store : Store) (userID : String)
    (req : HealthRecordRequest) (newID : String) (now : Int)
    (hval : validateHealthRecordInput req.type req.value req.unit = true)
    (hne : req.recordedAt ≠ "")
    (hpar : parseTime req.recordedAt = none) :
    (createHealthRecord parseTime store userID req newID now).1.status = 201 ∧
    ∃ r, (createHealthRecord parseTime store userID req newID now).1.record = some r ∧
      r.recordedAt = now := by
  simp [createHealthRecord, hval, hne, hpar]

theorem C9_invalid_recorded_at_uses_server_time_witness :
    validateHealthRecordInput sampleReq.type sampleReq.value sampleReq.unit = true ∧
    sampleReq.recordedAt ≠ "" ∧
    (fun (_ : String) => (none : Option Int)) sampleReq.recordedAt = none ∧
    ((createHealthRecord (fun _ => none) sampleStore3 "u" sampleReq "d" 50).1.status = 201 ∧
     ∃ r, (createHealthRecord (fun _ => none) sampleStore3 "u" sampleReq "d" 50).1.record
        = some r ∧ r.recordedAt = 50) :=
  ⟨by decide, by decide, rfl,
   C9_invalid_recorded_at_uses_server_time (fun _ => none) sampleStore3 "u" sampleReq "d" 50
     (by decide) (by decide) rfl⟩

/-- C4: a login attempt with a registered email but a failing password
check produces exactly the same response (status and body) as a login
attempt with an unregistered email, so the two causes are
indistinguishable to the client. -/
theorem C4_login_enumeration_resistance
    (verify : String → String → Bool) (validEmail : String → Bool)
    (users : List (String × User)) (secret : String) (now : Int)
    (e1 p1 e2 p2 : String) (u : User)
    (hv1 : validEmail e1 = true) (hp1 : p1 ≠ "")
    (hv2 : validEmail e2 = true) (hp2 : p2 ≠ "")
    (hreg : kvGet ("user:" ++ e1) users = some u)
    (hbad : verify u.password p1 = false)
    (hmiss : kvGet ("user:" ++ e2) users = none) :
    loginHandler verify validEmail users secret now e1 p1 =
      loginHandler verify validEmail users secret now e2 p2 ∧
    (loginHandler verify validEmail users secret now e1 p1).status = 401 ∧
    (loginHandler verify validEmail users secret now e1 p1).error =
      some "Invalid email or password" := by
  have h1 : loginHandler verify validEmail users secret now e1 p1 =
      { status := 401, error := some "Invalid email or password",
        token := none, userID := none } := by
    simp [loginHandler, hv1, hp1, hreg, hbad]
  have h2 : loginHandler verify validEmail users secret now e2 p2 =
      { status := 401, error := some "Invalid email or password",
        token := none, userID := none } := by
    simp [loginHandler, hv2, hp2, hmiss]
  rw [h1, h2]
  exact ⟨rfl, rfl, rfl⟩

theorem C4_login_enumeration_resistance_witness :
    (fun (_ : String) => true) "alice@example.com" = true ∧ ("wrongpw" : String) ≠ "" ∧
    (fun (_ : String) => true) "nobody@example.com" = true ∧ ("anypw" : String) ≠ "" ∧
    kvGet ("user:" ++ "alice@example.com")
      [("user:alice@example.com", sampleUser)] = some sampleUser ∧
    (fun (_ _ : String) => false) sampleUser.password "wrongpw" = false ∧
    kvGet ("user:" ++ "nobody@example.com")
      [("user:alice@example.com", sampleUser)] = none ∧
    (loginHandler (fun _ _ => false) (fun _ => true)
        [("user:alice@example.com", sampleUser)] "s" 0 "alice@example.com" "wrongpw" =
      loginHandler (fun _ _ => false) (fun _ => true)
        [("user:alice@example.com", sampleUser)] "s" 0 "nobody@example.com" "anypw" ∧
     (loginHandler (fun _ _ => false) (fun _ => true)
        [("user:alice@example.com", sampleUser)] "s" 0 "alice@example.com" "wrongpw").status
        = 401 ∧
     (loginHandler (fun _ _ => false) (fun _ => true)
        [("user:alice@example.com", sampleUser)] "s" 0 "alice@example.com" "wrongpw").error
        = some "Invalid email or password") :=
  ⟨rfl, by decide, rfl, by decide, by decide, rfl, by decide,
   C4_login_enumeration_resistance (fun _ _ => false) (fun _ => true)
     [("user:alice@example.com", sampleUser)] "s" 0
     "alice@example.com" "wrongpw" "nobody@example.com" "anypw" sampleUser
     rfl (by decide) rfl (by decide) (by decide) rfl (by decide)⟩

/-- C10: the stats endpoint accepts any non-empty type string — also one
outside the closed record-type set, for which no record can exist and
nothing was cached: it returns no validation error but 200 with the
zero-valued stats object (count 0). -/
theorem C10_any_nonempty_type_zero_stats (store : Store) (userID recordType : String)
    (hne : recordType ≠ "")
    (hcache : kvGet (statsKey userID recordType) store.statsCache = none)
    (hnorec : ∀ p ∈ store.records, (p.2.1).type ≠ recordType) :
    (getHealthStats store userID recordType).1.status = 200 ∧
    (getHealthStats store userID recordType).1.error = none ∧
    (getHealthStats store userID recordType).1.stats = some zeroStats ∧
    zeroStats.count = 0 := by
  have hvals : statsValues store userID recordType = [] :=
    statsValues_nil_of_no_match store userID recordType hnorec
  simp [getHealthStats, hne, hcache, recomputeStats, hvals, zeroStats]

theorem C10_any_nonempty_type_zero_stats_witness :
    ("steps" : String) ≠ "" ∧
    kvGet (statsKey "u" "steps") sampleStore3.statsCache = none ∧
    (∀ p ∈ sampleStore3.records, (p.2.1).type ≠ "steps") ∧
    ((getHealthStats sampleStore3 "u" "steps").1.status = 200 ∧
     (getHealthStats sampleStore3 "u" "steps").1.error = none ∧
     (getHealthStats sampleStore3 "u" "steps").1.stats = some zeroStats ∧
     zeroStats.count = 0) :=
  ⟨by decide, rfl, by decide,
   C10_any_nonempty_type_zero_stats sampleStore3 "u" "steps" (by decide) rfl (by decide)⟩

/-- C7: on a stats cache miss, if no stored record matches the requested
type the endpoint returns the zero-valued stats (count 0) and writes
nothing to the store; if at least one matches, the computed stats are
cached under the stats key with a 3600-second TTL. -/
theorem C7_cache_miss_policy (store : Store) (userID recordType : String)
    (hne : recordType ≠ "")
    (hcache : kvGet (statsKey userID recordType) store.statsCache = none) :
    (statsValues store userID recordType = [] →
      (getHealthStats store userID recordType).1.stats = some zeroStats ∧
      zeroStats.count = 0 ∧
      (getHealthStats store userID recordType).2 = store) ∧
    (statsValues store userID recordType ≠ [] →
      ∃ s, (getHealthStats store userID recordType).1.stats = some s ∧
        kvGet (statsKey userID recordType)
          (getHealthStats store userID recordType).2.statsCache = some (s, 3600)) := by
  have hmain : getHealthStats store userID recordType =
      recomputeStats store userID recordType := by
    simp [getHealthStats, hne, hcache]
  constructor
  · intro hnil
    rw [hmain]
    simp [recomputeStats, hnil, zeroStats]
  · intro hnn
    rw [hmain]
    have hlen : (statsValues store userID recordType).length > 0 :=
      List.length_pos.mpr hnn
    simp only [recomputeStats, if_pos hlen]
    exact ⟨_, rfl, kvGet_kvSet_self _ _ _⟩

theorem C7_cache_miss_policy_witness :
    ("heart_rate" : String) ≠ "" ∧
    kvGet (statsKey "u" "heart_rate") sampleStore3.statsCache = none ∧
    ((statsValues sampleStore3 "u" "heart_rate" = [] →
      (getHealthStats sampleStore3 "u" "heart_rate").1.stats = some zeroStats ∧
      zeroStats.count = 0 ∧
      (getHealthStats sampleStore3 "u" "heart_rate").2 = sampleStore3) ∧
     (statsValues sampleStore3 "u" "heart_rate" ≠ [] →
      ∃ s, (getHealthStats sampleStore3 "u" "heart_rate").1.stats = some s ∧
        kvGet (statsKey "u" "heart_rate")
          (getHealthStats sampleStore3 "u" "heart_rate").2.statsCache = some (s, 3600))) :=
  ⟨by decide, rfl, C7_cache_miss_policy sampleStore3 "u" "heart_rate" (by decide) rfl⟩

/-- C3 counterexample: the cap is only applied when the parsed limit
exceeds 100, so a caller-requested `limit=0` reaches Redis as
`LRANGE key 0 -1` — the negative index selects the whole index — and a
user with 101 stored record ids gets all 101 back, refuting the claim
for every caller-requested limit value. -/
theorem C3_counterexample_limit_zero :
    (listRecordIDs store101 "u" (some 0)).length = 101 ∧
    ¬ (listRecordIDs store101 "u" (some 0)).length ≤ 100 := by
  constructor
  · rfl
  · intro hc
    have h : (listRecordIDs store101 "u" (some 0)).length = 101 := rfl
    omega

/-- C3 (amended): for every caller-requested limit ≥ 1 — and when the
limit parameter is absent or unparsable, where the default 20 applies —
the list endpoint fetches at most 100 record identifiers; in particular
`limit=1000` yields at most 100.  (A requested limit ≤ 0 escapes the
cap via Redis negative-index semantics.) -/
theorem C3_positive_limit_cap (store : Store) (userID : String) (l : Int) (hl : 1 ≤ l) :
    (listRecordIDs store userID (some l)).length ≤ 100 ∧
    (listRecordIDs store userID none).length ≤ 100 := by
  constructor
  · simp only [listRecordIDs, parseLimit]
    by_cases hc : l > 100
    · simp only [if_pos hc]
      have hb := lrange_zero_length_le (kvGetList (listKey userID) store.lists)
        ((100 : Int) - 1) (by omega)
      omega
    · simp only [if_neg hc]
      have hb := lrange_zero_length_le (kvGetList (listKey userID) store.lists)
        (l - 1) (by omega)
      omega
  · simp only [listRecordIDs, parseLimit]
    have hb := lrange_zero_length_le (kvGetList (listKey userID) store.lists)
      ((20 : Int) - 1) (by omega)
    omega

theorem C3_positive_limit_cap_witness :
    (1 : Int) ≤ 1000 ∧
    ((listRecordIDs store101 "u" (some 1000)).length ≤ 100 ∧
     (listRecordIDs store101 "u" none).length ≤ 100) :=
  ⟨by decide, C3_positive_limit_cap store101 "u" 1000 (by decide)⟩

/-- C8 counterexample: on the list-records read path a failing store
`LRange` call is answered with HTTP 200 and an empty array (the
handler's `err != nil` branch), not with a 500-class response as the
claim requires of every non-stats path. -/
theorem C8_counterexample_list_path_masks_failure :
    (getHealthRecordsF true sampleStore3 "u" none).status = 200 ∧
    ¬ (getHealthRecordsF true sampleStore3 "u" none).status = 500 :=
  ⟨rfl, by decide⟩

/-- C8 (amended): a store failure on the create write path yields 500
with the fixed generic body (no internal detail) and nothing written; a
failure of the stats cache lookup degrades to recomputation; but a
failure on the list-records read path is masked as 200 with an empty
list rather than surfaced as a 500-class response. -/
theorem C8_store_failure_responses
    (parseTime : String → Option Int) (store : Store) (userID : String)
    (req : HealthRecordRequest) (newID : String) (now : Int)
    (limitParam : Option Int) (recordType : String)
    (hval : validateHealthRecordInput req.type req.value req.unit = true)
    (hty : recordType ≠ "") :
    (createHealthRecordF true parseTime store userID req newID now).1.status = 500 ∧
    (createHealthRecordF true parseTime store userID req newID now).1.error =
      some "Failed to create record" ∧
    (createHealthRecordF true parseTime store userID req newID now).2 = store ∧
    getHealthStatsF true store userID recordType = recomputeStats store userID recordType ∧
    (getHealthRecordsF true store userID limitParam).status = 200 ∧
    (getHealthRecordsF true store userID limitParam).records = [] := by
  refine ⟨?_, ?_, ?_, ?_, rfl, rfl⟩
  · simp [createHealthRecordF, hval]
  · simp [createHealthRecordF, hval]
  · simp [createHealthRecordF, hval]
  · simp [getHealthStatsF, hty]

theorem C8_store_failure_responses_witness :
    validateHealthRecordInput sampleReq.type sampleReq.value sampleReq.unit = true ∧
    ("heart_rate" : String) ≠ "" ∧
    ((createHealthRecordF true (fun _ => none) sampleStore3 "u" sampleReq "d" 50).1.status
        = 500 ∧
     (createHealthRecordF true (fun _ => none) sampleStore3 "u" sampleReq "d" 50).1.error =
       some "Failed to create record" ∧
     (createHealthRecordF true (fun _ => none) sampleStore3 "u" sampleReq "d" 50).2
        = sampleStore3 ∧
     getHealthStatsF true sampleStore3 "u" "heart_rate" =
       recomputeStats sampleStore3 "u" "heart_rate" ∧
     (getHealthRecordsF true sampleStore3 "u" none).status = 200 ∧
     (getHealthRecordsF true sampleStore3 "u" none).records = []) :=
  ⟨by decide, by decide,
   C8_store_failure_responses (fun _ => none) sampleStore3 "u" sampleReq "d" 50 none
     "heart_rate" (by decide) (by decide)⟩

/-- C6: a successful create of a record of type T deletes the cached
stats entry for (user, T) — so the next stats read for T is a cache miss
that recomputes over an index now containing the new record's value —
while the cached stats entry under every other type's key is left
unchanged. -/
theorem C6_create_invalidates_stats
    (parseTime : String → Option Int) (store : Store) (userID : String)
    (req : HealthRecordRequest) (newID : String) (now : Int)
    (hval : validateHealthRecordInput req.type req.value req.unit = true)
    (hfresh : newID ∉ kvGetList (listKey userID) store.lists) :
    (createHealthRecord parseTime store userID req newID now).1.status = 201 ∧
    kvGet (statsKey userID req.type)
      (createHealthRecord parseTime store userID req newID now).2.statsCache = none ∧
    (∀ ty, ty ≠ req.type →
      kvGet (statsKey userID ty)
        (createHealthRecord parseTime store userID req newID now).2.statsCache =
      kvGet (statsKey userID ty) store.statsCache) ∧
    (getHealthStats (createHealthRecord parseTime store userID req newID now).2
      userID req.type).1.cacheHit = false ∧
    statsValues (createHealthRecord parseTime store userID req newID now).2 userID req.type =
      req.value :: statsValues store userID req.type := by
  have htyne : req.type ≠ "" := by
    intro he
    rw [he] at hval
    simp [validateHealthRecordInput] at hval
  have hcache2 : kvGet (statsKey userID req.type)
      (createHealthRecord parseTime store userID req newID now).2.statsCache = none := by
    simp [createHealthRecord, hval, kvGet_kvDel_self]
  have hlist : kvGetList (listKey userID)
      (createHealthRecord parseTime store userID req newID now).2.lists =
      newID :: kvGetList (listKey userID) store.lists := by
    simp [createHealthRecord, hval, kvGetList, kvGet_kvSet_self]
  have hrec : kvGet (recordKey userID newID)
      (createHealthRecord parseTime store userID req newID now).2.records =
      some ({ id := newID, userID := userID, type := req.type, value := req.value,
              unit := req.unit, notes := req.notes,
              recordedAt := if req.recordedAt = "" then now
                else match parseTime req.recordedAt with
                  | some t => t
                  | none => now,
              createdAt := now }, 2592000) := by
    simp [createHealthRecord, hval, kvGet_kvSet_self]
  have hframe : ∀ rid ∈ kvGetList (listKey userID) store.lists,
      kvGet (recordKey userID rid)
        (createHealthRecord parseTime store userID req newID now).2.records =
      kvGet (recordKey userID rid) store.records := by
    intro rid hm
    have hne : rid ≠ newID := fun he => hfresh (he ▸ hm)
    have hk : recordKey userID rid ≠ recordKey userID newID :=
      fun he => hne (recordKey_inj he)
    simp [createHealthRecord, hval, kvGet_kvSet_ne _ _ _ _ hk]
  refine ⟨by simp [createHealthRecord, hval], hcache2, ?_, ?_, ?_⟩
  · intro ty hty
    have hk : statsKey userID ty ≠ statsKey userID req.type :=
      fun he => hty (statsKey_inj he)
    simp [createHealthRecord, hval, kvGet_kvDel_ne _ _ _ hk]
  · simp [getHealthStats, htyne, hcache2, recomputeStats_cacheHit]
  · simp only [statsValues, hlist, collectStats, hrec, List.nil_append,
      eq_self_iff_true, if_true]
    rw [collectStats_fst _ userID req.type _ [req.value]]
    rw [collectStats_congr _ store userID req.type _ hframe]
    simp [statsValues]

theorem C6_create_invalidates_stats_witness :
    validateHealthRecordInput sampleReq.type sampleReq.value sampleReq.unit = true ∧
    ("d" : String) ∉ kvGetList (listKey "u") sampleStore3.lists ∧
    ((createHealthRecord (fun _ => none) sampleStore3 "u" sampleReq "d" 50).1.status = 201 ∧
     kvGet (statsKey "u" sampleReq.type)
       (createHealthRecord (fun _ => none) sampleStore3 "u" sampleReq "d" 50).2.statsCache
        = none ∧
     (∀ ty, ty ≠ sampleReq.type →
       kvGet (statsKey "u" ty)
         (createHealthRecord (fun _ => none) sampleStore3 "u" sampleReq "d" 50).2.statsCache =
       kvGet (statsKey "u" ty) sampleStore3.statsCache) ∧
     (getHealthStats (createHealthRecord (fun _ => none) sampleStore3 "u" sampleReq "d" 50).2
        "u" sampleReq.type).1.cacheHit = false ∧
     statsValues (createHealthRecord (fun _ => none) sampleStore3 "u" sampleReq "d" 50).2
        "u" sampleReq.type =
       sampleReq.value :: statsValues sampleStore3 "u" sampleReq.type) :=
  ⟨by decide, by decide,
   C6_create_invalidates_stats (fun _ => none) sampleStore3 "u" sampleReq "d" 50
     (by decide) (by decide)⟩

/-- C1: for a user whose stored records are exactly three heart-rate
records of values 60, 72 and 85.5 and none of any other type,
`getStats(user, "heart_rate")` answers count=3, min=60, max=85.5 and
average=(60+72+85.5)/3, first recomputed on a cache miss and then served
identically from the cache. -/
theorem C1_stats_heart_rate (uid i1 i2 i3 : String) (t1 t2 t3 : Int)
    (h12 : recordKey uid i1 ≠ recordKey uid i2)
    (h13 : recordKey uid i1 ≠ recordKey uid i3)
    (h23 : recordKey uid i2 ≠ recordKey uid i3) :
    ∃ s : HealthStats,
      (getHealthStats (mkStore3 uid i1 i2 i3 t1 t2 t3) uid "heart_rate").1.stats = some s ∧
      (getHealthStats (mkStore3 uid i1 i2 i3 t1 t2 t3) uid "heart_rate").1.cacheHit = false ∧
      s.count = 3 ∧ s.min = 60 ∧ s.max = 85.5 ∧ s.average = (60 + 72 + 85.5) / 3 ∧
      (getHealthStats
        (getHealthStats (mkStore3 uid i1 i2 i3 t1 t2 t3) uid "heart_rate").2
        uid "heart_rate").1.stats = some s ∧
      (getHealthStats
        (getHealthStats (mkStore3 uid i1 i2 i3 t1 t2 t3) uid "heart_rate").2
        uid "heart_rate").1.cacheHit = true := by
  set st := mkStore3 uid i1 i2 i3 t1 t2 t3 with hst
  have hmiss : kvGet (statsKey uid "heart_rate") st.statsCache = none := by
    simp [hst, mkStore3, kvGet]
  have hg1 : kvGet (recordKey uid i1) st.records =
      some ({ id := i1, userID := uid, type := "heart_rate", value := 60, unit := "bpm",
              notes := "", recordedAt := t1, createdAt := t1 }, 2592000) := by
    simp [hst, mkStore3, kvGet]
  have hg2 : kvGet (recordKey uid i2) st.records =
      some ({ id := i2, userID := uid, type := "heart_rate", value := 72, unit := "bpm",
              notes := "", recordedAt := t2, createdAt := t2 }, 2592000) := by
    simp [hst, mkStore3, kvGet, Ne.symm h12]
  have hg3 : kvGet (recordKey uid i3) st.records =
      some ({ id := i3, userID := uid, type := "heart_rate", value := 85.5, unit := "bpm",
              notes := "", recordedAt := t3, createdAt := t3 }, 2592000) := by
    simp [hst, mkStore3, kvGet, Ne.symm h13, Ne.symm h23]
  have hids : kvGetList (listKey uid) st.lists = [i3, i2, i1] := by
    simp [hst, mkStore3, kvGetList, kvGet]
  have hvals : statsValues st uid "heart_rate" = [85.5, 72, 60] := by
    simp [statsValues, hids, collectStats, hg1, hg2, hg3]
  have havg : calculateAverage [85.5, 72, 60] = (60 + 72 + 85.5) / 3 := by
    norm_num [calculateAverage, List.foldl]
  have hmin : calculateMin [85.5, 72, 60] = 60 := by
    norm_num [calculateMin, List.foldl]
  have hmax : calculateMax [85.5, 72, 60] = 85.5 := by
    norm_num [calculateMax, List.foldl]
  have hfull : getHealthStats st uid "heart_rate" =
      ({ status := 200, cacheHit := false,
         stats := some
           { userID := uid, type := "heart_rate",
             average := (60 + 72 + 85.5) / 3, min := 60, max := 85.5, count := 3,
             lastRecord := statsLast st uid "heart_rate" },
         error := none },
       { st with
         statsCache := kvSet (statsKey uid "heart_rate")
           ({ userID := uid, type := "heart_rate",
               average := (60 + 72 + 85.5) / 3, min := 60, max := 85.5, count := 3,
               lastRecord := statsLast st uid "heart_rate" }, 3600) st.statsCache }) := by
    simp only [getHealthStats, hmiss]
    rw [if_neg (by decide : ¬ ("heart_rate" : String) = "")]
    simp only [recomputeStats, hvals, havg, hmin, hmax]
    norm_num
  refine ⟨{ userID := uid, type := "heart_rate",
            average := (60 + 72 + 85.5) / 3, min := 60, max := 85.5, count := 3,
            lastRecord := statsLast st uid "heart_rate" },
          ?_, ?_, rfl, rfl, rfl, rfl, ?_, ?_⟩
  · rw [hfull]
  · rw [hfull]
  · rw [hfull]
    simp [getHealthStats, kvGet_kvSet_self]
  · rw [hfull]
    simp [getHealthStats, kvGet_kvSet_self]

theorem C1_stats_heart_rate_witness :
    recordKey "u" "a" ≠ recordKey "u" "b" ∧
    recordKey "u" "a" ≠ recordKey "u" "c" ∧
    recordKey "u" "b" ≠ recordKey "u" "c" ∧
    (∃ s : HealthStats,
      (getHealthStats (mkStore3 "u" "a" "b" "c" 1 2 3) "u" "heart_rate").1.stats = some s ∧
      (getHealthStats (mkStore3 "u" "a" "b" "c" 1 2 3) "u" "heart_rate").1.cacheHit = false ∧
      s.count = 3 ∧ s.min = 60 ∧ s.max = 85.5 ∧ s.average = (60 + 72 + 85.5) / 3 ∧
      (getHealthStats
        (getHealthStats (mkStore3 "u" "a" "b" "c" 1 2 3) "u" "heart_rate").2
        "u" "heart_rate").1.stats = some s ∧
      (getHealthStats
        (getHealthStats (mkStore3 "u" "a" "b" "c" 1 2 3) "u" "heart_rate").2
        "u" "heart_rate").1.cacheHit = true) :=
  ⟨by decide, by decide, by decide,
   C1_stats_heart_rate "u" "a" "b" "c" 1 2 3 (by decide) (by decide) (by decide)⟩

end HealthAPI
